import Mathlib

/-!
Verification development for the Nano Banana Pro template-harvesting pipeline
(`extract_from_github.py` and `extract_banana_templates.py`).

Text is modelled as `List Char` (Lean 4 `String` is a wrapper around
`List Char`, so string literals convert via `.data`).  Python string
operations used by the scripts are embedded below; notes on fidelity:

* `str.strip()` strips the Python whitespace set (space, tab, newline,
  carriage return, vertical tab, form feed).
* `str.lower()` / `str.title()` are modelled on ASCII letters; the CJK
  characters appearing in this repository are uncased in Python as well,
  so they pass through unchanged in both the model and the original.
* `str.isalpha()` is modelled as ASCII letters plus the CJK Unified
  Ideographs block, which covers every character class the scripts meet.
* The float comparison `english_chars / total_chars > 0.6` (resp. `> 0.7`)
  is embedded as the exact rational comparison `5*e > 3*t` (resp.
  `10*e > 7*t`); for the line lengths involved the IEEE-754 comparison and
  the rational one agree.
* `int(...)` is modelled with optional surrounding whitespace, an optional
  single sign, and a nonempty run of ASCII decimal digits.
-/

/-- Characters of a text, the underlying representation of a Python `str`. -/
abbrev Chars := List Char

/-- The Python default whitespace set used by `str.strip()` (space, tab,
newline, carriage return, vertical tab, form feed), by code point. -/
def isPySpace (c : Char) : Bool :=
  c.toNat = 32 || c.toNat = 9 || c.toNat = 10 || c.toNat = 13 ||
    c.toNat = 11 || c.toNat = 12

/-- Python `s.strip()`. -/
def pyStrip (s : Chars) : Chars :=
  ((s.dropWhile isPySpace).reverse.dropWhile isPySpace).reverse

/-- ASCII lowering of one character, as Python `str.lower()` acts on the
character classes present in this repository. -/
def pyLowerChar (c : Char) : Char :=
  if 'A' ≤ c ∧ c ≤ 'Z' then Char.ofNat (c.toNat + 32) else c

/-- Python `s.lower()`. -/
def pyLower (s : Chars) : Chars := s.map pyLowerChar

/-- Python `s.startswith(pat)`. -/
def pyStartsWith (pat s : Chars) : Bool := pat.isPrefixOf s

/-- Python `s.endswith(pat)`. -/
def pyEndsWith (pat s : Chars) : Bool := pat.isSuffixOf s

/-- Python `pat in s` (substring containment). -/
def pyContains (pat s : Chars) : Bool :=
  (List.range (s.length + 1)).any (fun i => pat.isPrefixOf (s.drop i))

/-- Python `s.split(sep)` for a one-character separator (the scripts split
on `"\n"` and `"/"` only).  Empty pieces are kept, as in Python. -/
def pySplit (sep : Char) : Chars → List Chars
  | [] => [[]]
  | c :: cs =>
    if c = sep then [] :: pySplit sep cs
    else
      match pySplit sep cs with
      | [] => [[c]]
      | p :: ps => (c :: p) :: ps

/-- Helper for `pyReplaceAll`; the fuel argument (at least the length of
the scanned text) makes the recursion structural. -/
def pyReplaceAux (pat rep : Chars) : Nat → Chars → Chars
  | _, [] => []
  | 0, s => s
  | fuel + 1, c :: cs =>
    if pat ≠ [] ∧ pat.isPrefixOf (c :: cs) then
      rep ++ pyReplaceAux pat rep fuel ((c :: cs).drop pat.length)
    else
      c :: pyReplaceAux pat rep fuel cs

/-- Python `s.replace(pat, rep)` for a nonempty pattern: scans left to
right, replacing non-overlapping occurrences. -/
def pyReplaceAll (pat rep s : Chars) : Chars :=
  pyReplaceAux pat rep s.length s

/-- Python `str.isalpha()` for one character, on the character classes
occurring in this repository: ASCII letters and CJK Unified Ideographs. -/
def pyIsAlpha (c : Char) : Bool :=
  c.isAlpha || (0x4e00 ≤ c.toNat && c.toNat ≤ 0x9fff)

/-- ASCII uppering of one character. -/
def pyUpperChar (c : Char) : Char :=
  if 'a' ≤ c ∧ c ≤ 'z' then Char.ofNat (c.toNat - 32) else c

/-- Python `s.title()`: the first alphabetic character of every maximal
alphabetic run is uppercased, the rest are lowercased (ASCII casing; CJK
characters are uncased and only delimit runs, as in Python). -/
def pyTitleAux : Bool → Chars → Chars
  | _, [] => []
  | prevAlpha, c :: cs =>
    (if prevAlpha then pyLowerChar c else pyUpperChar c) ::
      pyTitleAux (pyIsAlpha c) cs

/-- Python `s.title()`. -/
def pyTitle (s : Chars) : Chars := pyTitleAux false s

/-- Value of an ASCII decimal digit character (code points 48–57). -/
def digitVal (c : Char) : Option Nat :=
  if 48 ≤ c.toNat ∧ c.toNat ≤ 57 then some (c.toNat - 48) else none

/-- Accumulating decimal reading of a digit run; fails at the first
non-digit character. -/
def parseNatAux (acc : Nat) : Chars → Option Nat
  | [] => some acc
  | c :: cs =>
    match digitVal c with
    | some d => parseNatAux (acc * 10 + d) cs
    | none => none

/-- A nonempty run of ASCII decimal digits, read as a natural number. -/
def parseNat : Chars → Option Nat
  | [] => none
  | c :: cs => parseNatAux 0 (c :: cs)

/-- Python `int(s)`: optional surrounding whitespace, an optional single
sign, then a nonempty run of decimal digits.  `none` models `ValueError`. -/
def pyInt (s : Chars) : Option Int :=
  match pyStrip s with
  | '+' :: rest => (parseNat rest).map Int.ofNat
  | '-' :: rest => (parseNat rest).map (fun n => -(n : Int))
  | rest => (parseNat rest).map Int.ofNat

/-- Little-endian decimal digits of a natural number; the fuel argument
(at least `n`) makes the recursion structural.  `natDigitsLE 0 = []`. -/
def natDigitsAux : Nat → Nat → List Nat
  | 0, _ => []
  | _ + 1, 0 => []
  | fuel + 1, n + 1 => ((n + 1) % 10) :: natDigitsAux fuel ((n + 1) / 10)

/-- Little-endian decimal digits of a natural number. -/
def natDigitsLE (n : Nat) : List Nat := natDigitsAux n n

/-- Decimal digit characters of a natural number (big-endian), as Python
`repr`/`str` renders a nonnegative integer. -/
def natChars (n : Nat) : Chars :=
  if n = 0 then ['0'] else ((natDigitsLE n).reverse.map Nat.digitChar)

/-- Python `format(n, '0Nd')` for a nonnegative value: zero-pad the decimal
rendering on the left to width `w`. -/
def padNat (w n : Nat) : Chars :=
  List.replicate (w - (natChars n).length) '0' ++ natChars n

/-- Python `f"{v:03d}"` for an integer value (negative values carry the
sign inside the width, as in Python; the scripts only ever format positive
values). -/
def pad3Int (v : Int) : Chars :=
  if v < 0 then '-' :: padNat 2 v.toNat else padNat 3 v.toNat

/-! ## Data model

`Template` mirrors the record dictionaries built by `parse_prompt_file` in
both scripts; `id` is optional because `extract_from_github.py` assigns the
`id` key only at acceptance time (`if 'id' in item` in `get_next_id`).  The
field `ratioVal` models the JSON key `"ratio"`, and `src` the key
`"source"`. -/

/-- The `source` attribution object embedded in every record. -/
structure SourceRef where
  name : String
  label : String
  url : String
deriving DecidableEq

/-- One template record, as the dictionaries built by the scripts. -/
structure Template where
  id : Option String := none
  title : String
  channels : List String
  materials : List String
  industries : List String
  ratioVal : String
  preview : String
  image : String
  prompt : String
  prompt_params : String
  tips : String
  src : SourceRef
deriving DecidableEq

/-- `meta` of the persisted catalog (`templates.json`).  Only these two
keys are ever touched by the merge step. -/
structure CatalogMeta where
  version : String
  updated_at : String
deriving DecidableEq

/-- The persisted catalog: `{meta, items}`. -/
structure Catalog where
  meta : CatalogMeta
  items : List Template
deriving DecidableEq

/-! ## Prompt extraction (`parse_prompt_file` / `_extract_prompt`) -/

/-- `content.split("\n")`, the line list both extractors scan. -/
def toLines (content : String) : List Chars := pySplit '\n' content.data

/-- First loop of `parse_prompt_file` in `extract_from_github.py`: scan
lines, toggling the fenced-block flag on each delimiter line; return the
first non-blank stripped line seen while inside a block. -/
def fenceScanG : List Chars → Bool → Option Chars
  | [], _ => none
  | l :: ls, inCode =>
    let s := pyStrip l
    if pyStartsWith "```".data s then fenceScanG ls (!inCode)
    else if inCode && !s.isEmpty then some s
    else fenceScanG ls inCode

/-- The Latin-ratio test of `extract_from_github.py` (threshold 0.6):
non-blank, not a heading, longer than 20 characters, and the ratio of
ASCII-alphabetic to all alphabetic characters exceeds 3/5. -/
def asciiAlphaCount (s : Chars) : Nat :=
  (s.filter (fun c => pyIsAlpha c && c.toNat < 128)).length

/-- Count of all alphabetic characters of a line (`c.isalpha()`). -/
def alphaCount (s : Chars) : Nat := (s.filter pyIsAlpha).length

/-- The qualifying condition of the second loop of `parse_prompt_file` in
`extract_from_github.py`. -/
def latinLine06 (s : Chars) : Bool :=
  !s.isEmpty && !pyStartsWith "#".data s && decide (s.length > 20) &&
    decide (0 < alphaCount s) && decide (3 * alphaCount s < 5 * asciiAlphaCount s)

/-- Second loop of `parse_prompt_file` in `extract_from_github.py`: first
stripped line qualifying under `latinLine06`. -/
def latinScanG : List Chars → Option Chars
  | [] => none
  | l :: ls =>
    let s := pyStrip l
    if latinLine06 s then some s else latinScanG ls

/-- Prompt extraction of `extract_from_github.py`'s `parse_prompt_file`:
the fenced-block loop, then the Latin-ratio loop; `none` when both fail
(the caller then returns `None` and the document is skipped). -/
def github_extract_prompt (content : String) : Option Chars :=
  match fenceScanG (toLines content) false with
  | some p => some p
  | none => latinScanG (toLines content)

/-- `NanoBananaTemplateExtractor._is_english_prompt` (threshold 0.7). -/
def is_english_prompt (s : Chars) : Bool :=
  decide (0 < alphaCount s) && decide (7 * alphaCount s < 10 * asciiAlphaCount s)

/-- First loop of `NanoBananaTemplateExtractor._extract_prompt`: one pass
in which the fenced rule (inside a block) and the Latin rule (outside,
`len > 20`, English ratio > 0.7) compete per line. -/
def bananaScan : List Chars → Bool → Option Chars
  | [], _ => none
  | l :: ls, inCode =>
    let s := pyStrip l
    if pyStartsWith "```".data s then bananaScan ls (!inCode)
    else if inCode && !s.isEmpty then some s
    else if !inCode && !s.isEmpty && !pyStartsWith "#".data s &&
        decide (s.length > 20) && is_english_prompt s then some s
    else bananaScan ls inCode

/-- Second loop of `_extract_prompt`: first non-blank, non-heading stripped
line longer than 10 characters. -/
def ruleThreeScan : List Chars → Option Chars
  | [] => none
  | l :: ls =>
    let s := pyStrip l
    if !s.isEmpty && !pyStartsWith "#".data s && decide (s.length > 10) then some s
    else ruleThreeScan ls

/-- `NanoBananaTemplateExtractor._extract_prompt`: the one-pass scan, then
the rule-three scan, then the hardcoded placeholder string. -/
def banana_extract_prompt (content : String) : Chars :=
  match bananaScan (toLines content) false with
  | some p => p
  | none =>
    match ruleThreeScan (toLines content) with
    | some p => p
    | none => "高质量图像生成提示词".data

/-! ## Classification -/

/-- `any(kw in s for kw in kws)`. -/
def anyKw (kws : List String) (s : Chars) : Bool :=
  kws.any (fun kw => pyContains kw.data s)

/-- `classify_template` of `extract_from_github.py`.  (The source computes
`content.lower()` but never consults it; only the lowercased filename is
tested.)  Returns `(channels, materials, industries, ratio)`. -/
def classify_template (filename : String) (_content : String) :
    List String × List String × List String × String :=
  let fl := pyLower filename.data
  let channels :=
    if anyKw ["portrait", "anime", "character", "写实", "动漫"] fl then ["生活", "小红书"]
    else if anyKw ["product", "food", "fashion", "产品", "美食", "时尚"] fl then ["电商"]
    else if anyKw ["cyberpunk", "comic", "pixel", "fantasy", "赛博", "漫画"] fl then ["娱乐", "短视频平台"]
    else ["全部"]
  let materials :=
    if anyKw ["portrait", "character", "写实"] fl then ["个人写真"]
    else if anyKw ["poster", "海报"] fl then ["电影海报", "广告图"]
    else if anyKw ["logo", "design"] fl then ["产品设计"]
    else if anyKw ["comic", "漫画"] fl then ["漫画插图"]
    else if anyKw ["landscape", "风景"] fl then ["全屏海报"]
    else ["全部"]
  let industries :=
    if anyKw ["food", "美食"] fl then ["美食餐饮"]
    else if anyKw ["fashion", "时尚"] fl then ["服饰箱包"]
    else if anyKw ["architectural", "architecture", "建筑"] fl then ["建筑", "家居家装"]
    else ["通用"]
  let rat :=
    if anyKw ["portrait", "写实"] fl then "9:16"
    else if anyKw ["landscape", "风景"] fl then "16:9"
    else if anyKw ["poster", "海报"] fl then "3:4"
    else "1:1"
  (channels, materials, industries, rat)

/-- `NanoBananaTemplateExtractor._classify_template`.  Returns
`(channels, materials, industries, ratio)`. -/
def banana_classify_template (category title : String) (_content : String) :
    List String × List String × List String × String :=
  let tl := pyLower title.data
  let cl := pyLower category.data
  let channels :=
    if category = "肖像" || pyContains "portrait".data cl then ["生活", "小红书"]
    else if category = "摄影" || pyContains "photography".data cl then ["电商", "广告营销"]
    else if category = "设计" || pyContains "design".data cl then ["电商", "广告营销"]
    else if category = "场景" || category = "艺术风格" then ["娱乐", "短视频平台"]
    else ["全部"]
  let materials :=
    if pyContains "肖像".data cl || pyContains "角色".data tl ||
        pyContains "character".data tl || pyContains "portrait".data tl then ["个人写真"]
    else if pyContains "logo".data tl then ["产品设计"]
    else if pyContains "产品".data tl || pyContains "product".data tl then ["产品展示"]
    else if pyContains "海报".data tl || pyContains "poster".data tl then ["电影海报", "广告图"]
    else if pyContains "风景".data tl || pyContains "landscape".data tl then ["全屏海报"]
    else if pyContains "漫画".data cl || pyContains "comic".data tl then ["漫画插图"]
    else ["全部"]
  let industries :=
    if pyContains "美食".data tl || pyContains "food".data tl then ["美食餐饮"]
    else if pyContains "时尚".data tl || pyContains "fashion".data tl then ["服饰箱包"]
    else if pyContains "建筑".data tl || pyContains "室内".data tl ||
        pyContains "architectural".data tl || pyContains "interior".data tl then ["建筑", "家居家装"]
    else if pyContains "logo".data tl || pyContains "设计".data tl then ["广告营销"]
    else ["通用"]
  let rat :=
    if pyContains "肖像".data cl || pyContains "portrait".data tl then "9:16"
    else if pyContains "风景".data tl || pyContains "landscape".data tl then "16:9"
    else if pyContains "海报".data tl || pyContains "poster".data tl then "3:4"
    else "1:1"
  (channels, materials, industries, rat)

/-! ## Whole-document parsing -/

/-- `parse_prompt_file` of `extract_from_github.py`: returns `none` when
the content is empty or no prompt is extracted (the document is skipped),
otherwise the record dictionary.  The prompt is capped with `[:500]`. -/
def github_parse_prompt_file (content filepath : String) : Option Template :=
  if content.data.isEmpty then none
  else
    let parts := pySplit '/' (pyReplaceAll ".md".data [] filepath.data)
    let filename := parts.getLastD []
    match github_extract_prompt content with
    | none => none
    | some prompt =>
      let title := pyTitle (pyStrip (pyReplaceAll "_".data " ".data
        (pyReplaceAll "-".data " ".data filename)))
      let cls := classify_template (String.mk filename) content
      some {
        id := none
        title := "Nano Banana·" ++ String.mk title
        channels := cls.1
        materials := cls.2.1
        industries := cls.2.2.1
        ratioVal := cls.2.2.2
        preview := ""
        image := ""
        prompt := String.mk (prompt.take 500)
        prompt_params := "可根据需要调整提示词中的风格、细节和质量参数"
        tips := "从 GitHub 仓库提取的" ++ String.mk title ++ "提示词模板"
        src := {
          name := "@xianyu110"
          label := "GitHub"
          url := "https://github.com/xianyu110/awesome-nanobananapro-prompts/blob/master/"
            ++ filepath } }

/-- `NanoBananaTemplateExtractor._extract_params`: first stripped line
whose lowering contains one of the keywords, capped with `[:100]`. -/
def extract_params : List Chars → Chars
  | [] => "可根据需要调整提示词中的风格、细节和质量参数".data
  | l :: ls =>
    let s := pyStrip l
    if anyKw ["parameter", "建议", "参数", "tip"] (pyLower s) then s.take 100
    else extract_params ls

/-- `NanoBananaTemplateExtractor.parse_prompt_file`.  The argument
`hashVal` models `int(hashlib.md5(filepath.encode()).hexdigest()[:8], 16)`
(the MD5 computation itself is kept abstract); the record's `id` is
`"nbp-"` followed by `hashVal % 10000` zero-padded to width 4. -/
def banana_parse_prompt_file (hashVal : Nat) (content filepath : String) : Template :=
  let parts := pySplit '/' (pyReplaceAll ".md".data [] filepath.data)
  let category := if 3 ≤ parts.length then String.mk (parts.getD (parts.length - 2) []) else "通用"
  let filename := parts.getLastD []
  let title := pyStrip (pyReplaceAll "-".data " ".data filename)
  let prompt := banana_extract_prompt content
  let template_id := "nbp-" ++ String.mk (padNat 4 (hashVal % 10000))
  let cls := banana_classify_template category (String.mk title) content
  { id := some template_id
    title := "Nano Banana·" ++ String.mk title
    channels := cls.1
    materials := cls.2.1
    industries := cls.2.2.1
    ratioVal := cls.2.2.2
    preview := ""
    image := ""
    prompt := String.mk (prompt.take 500)
    prompt_params := String.mk (extract_params (toLines content))
    tips := category ++ "类提示词模板，适用于" ++ String.mk title ++ "风格的图像生成"
    src := {
      name := "@xianyu110"
      label := "GitHub"
      url := "https://github.com/xianyu110/awesome-nanobananapro-prompts/blob/master/"
        ++ filepath } }

/-! ## Deduplication and ID allocation (`extract_from_github.py`) -/

/-- Loop of `get_next_id`: running maximum of the numeric parts of the ids
seen so far; `none` models the `ValueError` raised by
`int(item['id'].replace('nbp-', ''))` on an unparsable id. -/
def getNextIdAux (maxId : Int) : List Template → Option Int
  | [] => some maxId
  | t :: ts =>
    match t.id with
    | none => getNextIdAux maxId ts
    | some s =>
      match pyInt (pyReplaceAll "nbp-".data [] s.data) with
      | none => none
      | some v => getNextIdAux (if maxId < v then v else maxId) ts

/-- `get_next_id`: `f"nbp-{max_id + 1:03d}"` over the running maximum
started at 0. -/
def get_next_id (templates : List Template) : Option String :=
  (getNextIdAux 0 templates).map (fun m => "nbp-" ++ String.mk (pad3Int (m + 1)))

/-- The 100-character prompt fingerprint `template['prompt'][:100]`. -/
def promptKey (t : Template) : Chars := t.prompt.data.take 100

/-- The duplicate test of `main` in `extract_from_github.py`: the
candidate is compared against the records of the *existing* catalog only. -/
def isDupAgainst (existing : List Template) (t : Template) : Bool :=
  existing.any (fun e => promptKey e == promptKey t)

/-- The per-candidate loop of `main` in `extract_from_github.py` (steps
labelled 4 in the source): skip duplicates, otherwise assign
`get_next_id(existing_items + new_templates)` and append to the accepted
list.  `none` models the uncaught `ValueError` of `get_next_id`. -/
def processCandidatesAux (existing : List Template) (acc : List Template) :
    List Template → Option (List Template)
  | [] => some acc
  | t :: rest =>
    if isDupAgainst existing t then processCandidatesAux existing acc rest
    else
      match get_next_id (existing ++ acc) with
      | none => none
      | some newId => processCandidatesAux existing (acc ++ [{ t with id := some newId }]) rest

/-- The run's acceptance loop started with an empty accepted list. -/
def processCandidates (existing cands : List Template) : Option (List Template) :=
  processCandidatesAux existing [] cands

/-! ## Catalog merge (`main`, step 5) -/

/-- Step 5 of `main`: when at least one record was accepted, refresh
`meta.version`/`meta.updated_at` and extend `items`; a run that accepts
nothing skips the whole block, leaving the persisted file untouched. -/
def mergeStep (data : Catalog) (new_templates : List Template)
    (nowDate nowIso : String) : Catalog :=
  if new_templates.isEmpty then data
  else { meta := { version := nowDate, updated_at := nowIso },
         items := data.items ++ new_templates }

/-! ## Filesystem effect model for the catalog write

The save in `main` is `open(templates_json_path, 'w')` followed by
`json.dump(...)`: opening with mode `'w'` truncates the file in place
before any byte of the new content is written.  The write is modelled as
the sequence of effects below over an association-list filesystem, so that
interrupted prefixes of the sequence can be examined. -/

/-- One filesystem effect. -/
inductive FsEffect where
  | openTrunc : String → FsEffect
  | writeAll : String → String → FsEffect
  | renameFile : String → String → FsEffect
deriving DecidableEq

/-- Filesystem contents: path ↦ file contents. -/
abbrev FsState := List (String × String)

/-- Content of a path. -/
def fsGet (fs : FsState) (p : String) : Option String :=
  (fs.find? (fun e => e.1 == p)).map (fun e => e.2)

/-- Set the content of a path. -/
def fsSet (fs : FsState) (p v : String) : FsState :=
  (p, v) :: fs.filter (fun e => !(e.1 == p))

/-- Remove a path. -/
def fsDel (fs : FsState) (p : String) : FsState :=
  fs.filter (fun e => !(e.1 == p))

/-- Apply one effect. -/
def applyEffect (fs : FsState) : FsEffect → FsState
  | FsEffect.openTrunc p => fsSet fs p ""
  | FsEffect.writeAll p c => fsSet fs p c
  | FsEffect.renameFile a b =>
    match fsGet fs a with
    | none => fs
    | some v => fsSet (fsDel fs a) b v

/-- Apply a sequence of effects. -/
def runEffects (fs : FsState) (ops : List FsEffect) : FsState :=
  ops.foldl applyEffect fs

/-- The effect sequence of the catalog save in `main` (lines
`with open(templates_json_path, 'w') ... json.dump(data, f, ...)`). -/
def saveCatalogEffects (path content : String) : List FsEffect :=
  [FsEffect.openTrunc path, FsEffect.writeAll path content]

/-! ## Document locators -/

/-- The file filter of `find_template_files` in `extract_from_github.py`:
`file.endswith(".md") and file.lower() != "readme.md"`. -/
def github_keep_file (f : String) : Bool :=
  pyEndsWith ".md".data f.data && !(pyLower f.data == "readme.md".data)

/-- The file filter of `NanoBananaTemplateExtractor.find_template_files`:
`file.endswith(".md") and file != "README.md"`. -/
def banana_keep_file (f : String) : Bool :=
  pyEndsWith ".md".data f.data && !(f == "README.md")

/-- The locator: the walked entries (base names, in enumeration order)
surviving the filter. -/
def locateFiles (keep : String → Bool) (entries : List String) : List String :=
  entries.filter keep

/-! ## Specification-style reformulations and proof-support definitions

The `...Spec` definitions below transcribe the *amended* description of
the extraction policy (rules keyed to the position of a line and the
fenced-block parity before it, the earliest qualifying line in document
order winning); the theorems relate them to the loop embeddings above. -/

/-- Annotate every line with the fenced-block parity holding when the
scan reaches it (`true` = inside a fenced block). -/
def annotateParity : Bool → List Chars → List (Chars × Bool)
  | _, [] => []
  | par, l :: ls =>
    if pyStartsWith "```".data (pyStrip l) then (l, par) :: annotateParity (!par) ls
    else (l, par) :: annotateParity par ls

/-- Fenced rule as a per-line test: a non-delimiter, non-blank line lying
inside a fenced block. -/
def fencedRuleLine (lp : Chars × Bool) : Bool :=
  let s := pyStrip lp.1
  !pyStartsWith "```".data s && lp.2 && !s.isEmpty

/-- The combined per-line rule of `_extract_prompt`'s first pass: inside a
block any non-blank line qualifies; outside, the 0.7-threshold Latin rule
applies. -/
def bananaRuleLine (lp : Chars × Bool) : Bool :=
  let s := pyStrip lp.1
  !pyStartsWith "```".data s &&
    ((lp.2 && !s.isEmpty) ||
     (!lp.2 && !s.isEmpty && !pyStartsWith "#".data s &&
       decide (s.length > 20) && is_english_prompt s))

/-- Rule three as a per-line test: non-blank, non-heading, length > 10. -/
def ruleThreeLine (s : Chars) : Bool :=
  !s.isEmpty && !pyStartsWith "#".data s && decide (s.length > 10)

/-- Amended description of `extract_from_github.py`'s extraction: first
line inside a fenced block, else first 0.6-threshold Latin line, else
failure — there is no rule-three fallback. -/
def githubExtractSpec (content : String) : Option Chars :=
  match ((annotateParity false (toLines content)).find? fencedRuleLine).map
      (fun lp => pyStrip lp.1) with
  | some p => some p
  | none => ((toLines content).map pyStrip).find? latinLine06

/-- Amended description of `_extract_prompt`: the earliest line (in
document order) satisfying the combined fenced/Latin rule, else the first
rule-three line, else the placeholder. -/
def bananaExtractSpec (content : String) : Chars :=
  match ((annotateParity false (toLines content)).find? bananaRuleLine).map
      (fun lp => pyStrip lp.1) with
  | some p => p
  | none =>
    match ((toLines content).map pyStrip).find? ruleThreeLine with
    | some p => p
    | none => "高质量图像生成提示词".data

/-! Proof-support definitions for the ID allocator. -/

/-- Value of a little-endian decimal digit list. -/
def ofDigitsLE : List Nat → Nat
  | [] => 0
  | d :: ds => d + 10 * ofDigitsLE ds

/-- The digit value of a character, defaulting to 0. -/
def dvalD (c : Char) : Nat := (digitVal c).getD 0

/-- Numeric part of a record's id as `get_next_id` reads it:
`int(item['id'].replace('nbp-', ''))`. -/
def idNum (t : Template) : Option Int :=
  t.id.bind (fun s => pyInt (pyReplaceAll "nbp-".data [] s.data))

/-- A record whose id (when present) parses under `get_next_id`'s reading;
on a list of records all satisfying this, `get_next_id` cannot raise. -/
def wfId (t : Template) : Bool :=
  match t.id with
  | none => true
  | some s => (pyInt (pyReplaceAll "nbp-".data [] s.data)).isSome

/-- Total running-maximum fold mirroring the loop of `get_next_id`
(records whose id is absent or unparsable leave the maximum unchanged;
under `wfId` it agrees with `getNextIdAux`). -/
def maxFold (m : Int) (ts : List Template) : Int :=
  ts.foldl (fun m t =>
    match idNum t with
    | none => m
    | some v => if m < v then v else m) m

/-- The id string allocated for numeric value `n`:
`f"nbp-{n:03d}"` for a positive `n`. -/
def fmtId (n : Nat) : String := "nbp-" ++ String.mk (padNat 3 n)

/-- Numeric id value used to state ordering facts (0 when absent or
unparsable). -/
def idNumD (t : Template) : Int := (idNum t).getD 0

/-- The id shape asserted by the claim on `get_next_id`: the literal
prefix `nbp-` followed by a nonempty run of decimal digits. -/
def claimIdForm (s : String) : Bool :=
  pyStartsWith "nbp-".data s.data &&
    (let rest := s.data.drop 4
     !rest.isEmpty && rest.all (fun c => (digitVal c).isSome))

/-- Effect classifier used to state that the catalog save never renames. -/
def isRenameEffect : FsEffect → Bool
  | FsEffect.renameFile _ _ => true
  | _ => false

/-! Concrete fixtures used by witnesses and counterexamples. -/

/-- A template record with given id and prompt and empty remaining fields
(test fixture). -/
def mkTpl (i : Option String) (p : String) : Template :=
  { id := i, title := "", channels := [], materials := [], industries := []
    ratioVal := "", preview := "", image := "", prompt := p
    prompt_params := "", tips := "", src := { name := "", label := "", url := "" } }

/-- A concrete persisted catalog holding one record, dated 2024-01-01. -/
def catalogBefore : Catalog :=
  { meta := { version := "2024-01-01", updated_at := "2024-01-01T00:00:00" }
    items := [mkTpl (some "nbp-001") "Professional logo design, minimalist style"] }

/-- The record `parse_prompt_file` of `extract_from_github.py` builds for
the fenced document `"hello there okay"` at path `x/b.md`. -/
def fencedDocTpl : Template :=
  { id := none
    title := "Nano Banana·B"
    channels := ["全部"]
    materials := ["全部"]
    industries := ["通用"]
    ratioVal := "1:1"
    preview := ""
    image := ""
    prompt := "hello there okay"
    prompt_params := "可根据需要调整提示词中的风格、细节和质量参数"
    tips := "从 GitHub 仓库提取的B提示词模板"
    src := { name := "@xianyu110", label := "GitHub"
             url := "https://github.com/xianyu110/awesome-nanobananapro-prompts/blob/master/x/b.md" } }

/-! ## Sanity checks on the Python-operation models (concrete) -/

example : pyStrip "  ab  ".data = "ab".data := by decide
example : pySplit '/' "a/b/c".data = ["a".data, "b".data, "c".data] := by decide
example : pyReplaceAll "nbp-".data [] "nbp-042".data = "042".data := by decide
example : pyReplaceAll ".md".data [] "dir/File.md".data = "dir/File".data := by decide
example : pyInt "042".data = some 42 := by decide
example : pyInt "-5".data = some (-5) := by decide
example : pyInt "1a".data = none := by decide
example : pyInt "".data = none := by decide
example : pyInt "tpl-5".data = none := by decide
example : pyTitle "fashion photography".data = "Fashion Photography".data := by decide
example : pyContains "ash".data "Fashion".data = true := by decide
example : pyContains "xyz".data "Fashion".data = false := by decide
example : pad3Int 8 = "008".data := by decide
example : pad3Int 1000 = "1000".data := by decide

/-! ## C9 — Scenario A -/

/-- C9: for a document whose fenced block contains only
`Fashion photography, editorial style`, file name `Fashion-Photography.md`
and category hint `摄影`, the pipeline extracts exactly that prompt, the
derived title `Fashion Photography` (rendered after the fixed
`Nano Banana·` product prefix), and aspect ratio `1:1`.  The result is
independent of the path hash used for the record id. -/
theorem C9_scenario_a (hashVal : Nat) :
    (banana_parse_prompt_file hashVal "```\nFashion photography, editorial style\n```"
        "gpt4o-image-prompts-master/摄影/Fashion-Photography.md").prompt =
      "Fashion photography, editorial style" ∧
    (banana_parse_prompt_file hashVal "```\nFashion photography, editorial style\n```"
        "gpt4o-image-prompts-master/摄影/Fashion-Photography.md").title =
      "Nano Banana·" ++ "Fashion Photography" ∧
    (banana_parse_prompt_file hashVal "```\nFashion photography, editorial style\n```"
        "gpt4o-image-prompts-master/摄影/Fashion-Photography.md").ratioVal = "1:1" :=
  ⟨rfl, rfl, rfl⟩

/-! ## C1 — parse failure vs. synthesized placeholder -/

/-- C1: evaluation of both parsers on a document matching no extraction
rule (a heading line and a 2-character line).  `extract_from_github.py`
skips the document (`none`), but `_extract_prompt` of
`extract_banana_templates.py` returns the synthesized placeholder
`高质量图像生成提示词`, which `parse_prompt_file` then installs as the
record's prompt — contradicting the claim that no placeholder prompt is
ever returned. -/
theorem C1_placeholder_returned :
    github_parse_prompt_file "# 这是一个标题标题\n短句"
      "gpt4o-image-prompts-master/场景/Some-Doc.md" = none ∧
    banana_extract_prompt "# 这是一个标题标题\n短句" = "高质量图像生成提示词".data ∧
    (banana_parse_prompt_file 0 "# 这是一个标题标题\n短句"
        "gpt4o-image-prompts-master/场景/Some-Doc.md").prompt = "高质量图像生成提示词" := by
  decide

/-! ## C4 — the catalog write is not atomic -/

/-- C4: the save step of `main` issues no rename at all, and its first
effect truncates `templates.json` in place; a run interrupted after the
truncation leaves the persisted catalog empty rather than byte-for-byte
untouched, contradicting the claimed write-temp-then-rename commit. -/
theorem C4_truncate_in_place :
    (saveCatalogEffects "backend/internal/templates/assets/templates.json"
        "NEWCATALOG").any isRenameEffect = false ∧
    runEffects [("backend/internal/templates/assets/templates.json", "OLDCATALOG")]
        ((saveCatalogEffects "backend/internal/templates/assets/templates.json"
          "NEWCATALOG").take 1) =
      [("backend/internal/templates/assets/templates.json", "")] ∧
    fsGet (runEffects [("backend/internal/templates/assets/templates.json", "OLDCATALOG")]
        ((saveCatalogEffects "backend/internal/templates/assets/templates.json"
          "NEWCATALOG").take 1))
        "backend/internal/templates/assets/templates.json" ≠ some "OLDCATALOG" := by
  decide

/-! ## C5 — a zero-accept run -/

/-- C5 counterexample: a run that accepts zero records leaves the catalog
completely untouched — `meta.version`/`meta.updated_at` keep their old
values instead of being refreshed to the current date and timestamp. -/
theorem C5_counterexample :
    mergeStep catalogBefore [] "2025-06-01" "2025-06-01T12:00:00" = catalogBefore ∧
    catalogBefore.meta.version ≠ "2025-06-01" ∧
    catalogBefore.meta.updated_at ≠ "2025-06-01T12:00:00" := by
  decide

/-- C5 (amended): a run that accepts zero new records leaves the persisted
catalog entirely unchanged — `items` in content and order, and also
`meta.version` and `meta.updated_at`, which are *not* refreshed. -/
theorem C5_zero_accept_untouched (data : Catalog) (nowDate nowIso : String) :
    mergeStep data [] nowDate nowIso = data := rfl

/-! ## C7 — readme exclusion in the document locators -/

/-- C7 counterexample: the locator of `extract_banana_templates.py`
compares against the literal `README.md` only, so the lowercase
`readme.md` passes its filter and is returned as a template document,
contradicting the case-insensitive exclusion stated by the claim. -/
theorem C7_counterexample :
    banana_keep_file "readme.md" = true ∧
    locateFiles banana_keep_file ["readme.md", "README.md", "Poster.md"] =
      ["readme.md", "Poster.md"] := by
  decide

/-- C7 (amended): the clone-pipeline locator (`extract_from_github.py`)
keeps exactly the `.md` entries whose lowercased name differs from
`readme.md` (so `README.md`, `readme.md`, `Readme.MD` are all excluded);
the locator of `extract_banana_templates.py` keeps `.md` entries and
excludes only the exact name `README.md`, so `readme.md` is kept.  Both
locators return exactly the walked entries surviving their filter. -/
theorem C7_locator_filters :
    (∀ f : String, pyLower f.data = "readme.md".data → github_keep_file f = false) ∧
    github_keep_file "README.md" = false ∧
    github_keep_file "readme.md" = false ∧
    github_keep_file "Readme.MD" = false ∧
    banana_keep_file "README.md" = false ∧
    banana_keep_file "readme.md" = true ∧
    (∀ f : String, banana_keep_file f = true →
      f ≠ "README.md" ∧ ".md".data.isSuffixOf f.data = true) ∧
    (∀ (keep : String → Bool) (entries : List String) (e : String),
      e ∈ locateFiles keep entries ↔ e ∈ entries ∧ keep e = true) := by
  refine ⟨?_, by decide, by decide, by decide, by decide, by decide, ?_, ?_⟩
  · intro f h
    simp [github_keep_file, h]
  · intro f h
    simp only [banana_keep_file, Bool.and_eq_true, Bool.not_eq_true', beq_eq_false_iff_ne,
      ne_eq, pyEndsWith] at h
    exact ⟨h.2, h.1⟩
  · intro keep entries e
    simp [locateFiles, List.mem_filter]

/-- Witness for C7's amended statement at a concrete input. -/
theorem C7_locator_filters_witness : github_keep_file "ReadMe.md" = false :=
  C7_locator_filters.1 "ReadMe.md" (by decide)

/-! ## C2 — deduplication scope -/

/-- The accepted records' prompts are exactly the prompts of the
candidates that are not duplicates *of the existing catalog*; records
accepted earlier in the same run are never consulted. -/
theorem processAux_prompts (existing : List Template) :
    ∀ (cands acc res : List Template),
      processCandidatesAux existing acc cands = some res →
      res.map Template.prompt = acc.map Template.prompt ++
        (cands.filter (fun t => !isDupAgainst existing t)).map Template.prompt := by
  intro cands
  induction cands with
  | nil =>
    intro acc res h
    simp only [processCandidatesAux, Option.some.injEq] at h
    simp [← h]
  | cons t rest ih =>
    intro acc res h
    by_cases hd : isDupAgainst existing t = true
    · simp only [processCandidatesAux, hd, if_true] at h
      simpa [List.filter_cons, hd] using ih acc res h
    · rcases hg : get_next_id (existing ++ acc) with _ | nid
      · exfalso
        simp [processCandidatesAux, hd, hg] at h
      · simp only [processCandidatesAux, hd, if_false, hg, Bool.not_eq_true] at h
        rw [Bool.not_eq_true] at hd
        simp only [hd, Bool.false_eq_true, if_false] at h
        have := ih (acc ++ [{ t with id := some nid }]) res h
        simpa [List.filter_cons, hd] using this

/-- C2 counterexample: with an empty existing catalog and two candidates
carrying the identical prompt, the run accepts *both* — the second one's
first 100 prompt characters equal those of a record accepted earlier in
the same run, yet it is not dropped, contradicting the claimed
"existing-or-already-accepted" duplicate test. -/
theorem C2_counterexample :
    processCandidates []
      [mkTpl none "Professional logo design, minimalist style",
       mkTpl none "Professional logo design, minimalist style"] =
    some [{ mkTpl none "Professional logo design, minimalist style" with id := some "nbp-001" },
          { mkTpl none "Professional logo design, minimalist style" with id := some "nbp-002" }] := by
  decide

/-- C2 (amended): a candidate is marked a duplicate if and only if the
first 100 characters of its prompt equal those of some record of the
*existing* catalog; records accepted earlier in the same run are not
consulted.  Duplicates are dropped — the accepted records are, prompt for
prompt, exactly the candidates passing that test, in order. -/
theorem C2_dedup_against_existing_only (existing cands res : List Template)
    (h : processCandidates existing cands = some res) :
    res.map Template.prompt =
      (cands.filter (fun t => !isDupAgainst existing t)).map Template.prompt := by
  simpa using processAux_prompts existing cands [] res h

/-- Witness for C2's amended statement at a concrete input. -/
theorem C2_dedup_witness :
    ([{ mkTpl none "hello world" with id := some "nbp-001" }].map Template.prompt) =
      (([mkTpl none "dup prompt", mkTpl none "hello world"].filter
        (fun t => !isDupAgainst [mkTpl none "dup prompt"] t)).map Template.prompt) :=
  C2_dedup_against_existing_only [mkTpl none "dup prompt"]
    [mkTpl none "dup prompt", mkTpl none "hello world"]
    [{ mkTpl none "hello world" with id := some "nbp-001" }] (by decide)

/-! ## C10 — domain of the ID allocator -/

/-- The allocator loop succeeds exactly when every id present parses under
`int(item['id'].replace('nbp-', ''))`. -/
theorem getNextIdAux_isSome (ts : List Template) :
    ∀ m : Int, (getNextIdAux m ts).isSome = ts.all wfId := by
  induction ts with
  | nil => intro m; simp [getNextIdAux]
  | cons t ts ih =>
    intro m
    rcases hid : t.id with _ | s
    · simp [getNextIdAux, hid, wfId, ih]
    · rcases hp : pyInt (pyReplaceAll "nbp-".data [] s.data) with _ | v
      · simp [getNextIdAux, hid, hp, wfId]
      · simp [getNextIdAux, hid, hp, wfId, ih]

/-- C10 counterexample: the bare id `"7"` is not of the form `nbp-` +
digits, yet `get_next_id` is defined on it (it returns `nbp-008`) instead
of raising `ValueError`, contradicting the claimed domain. -/
theorem C10_counterexample :
    get_next_id [mkTpl (some "7") ""] = some "nbp-008" ∧
    claimIdForm "7" = false := by
  decide

/-- C10 (amended): `get_next_id` succeeds exactly when every item's id,
after removing every occurrence of the substring `nbp-`, parses as an
optionally-signed decimal integer — so `tpl-5`, `nbp-` and `nbp-1a` raise
`ValueError`, while bare integers (`7`) and signed remainders (`nbp--5`)
are accepted; on an empty list it returns `nbp-001`. -/
theorem C10_allocator_domain :
    (∀ ts : List Template, (get_next_id ts).isSome = ts.all wfId) ∧
    get_next_id [] = some "nbp-001" ∧
    get_next_id [mkTpl (some "tpl-5") ""] = none ∧
    get_next_id [mkTpl (some "nbp-") ""] = none ∧
    get_next_id [mkTpl (some "nbp-1a") ""] = none ∧
    get_next_id [mkTpl (some "nbp--5") ""] = some "nbp-001" := by
  refine ⟨?_, by decide, by decide, by decide, by decide, by decide⟩
  intro ts
  simp [get_next_id, getNextIdAux_isSome ts 0, Option.isSome_map]

/-! ## C8 — classifier totality -/

/-- C8: both classifiers are total: every input is assigned exactly one
aspect ratio from `{9:16, 16:9, 3:4, 1:1}` and non-empty tag lists for
channels, materials and industries; when no keyword rule of the relevant
dimension matches, channels default to the universal `全部` ("all") tag
and the aspect ratio defaults to `1:1`. -/
theorem C8_classifier_total :
    (∀ filename content : String,
      (classify_template filename content).2.2.2 ∈ ["9:16", "16:9", "3:4", "1:1"] ∧
      (classify_template filename content).1 ≠ [] ∧
      (classify_template filename content).2.1 ≠ [] ∧
      (classify_template filename content).2.2.1 ≠ [] ∧
      (anyKw ["portrait", "anime", "character", "写实", "动漫"] (pyLower filename.data) = false →
        anyKw ["product", "food", "fashion", "产品", "美食", "时尚"] (pyLower filename.data) = false →
        anyKw ["cyberpunk", "comic", "pixel", "fantasy", "赛博", "漫画"] (pyLower filename.data) = false →
        (classify_template filename content).1 = ["全部"]) ∧
      (anyKw ["portrait", "写实"] (pyLower filename.data) = false →
        anyKw ["landscape", "风景"] (pyLower filename.data) = false →
        anyKw ["poster", "海报"] (pyLower filename.data) = false →
        (classify_template filename content).2.2.2 = "1:1")) ∧
    (∀ category title content : String,
      (banana_classify_template category title content).2.2.2 ∈ ["9:16", "16:9", "3:4", "1:1"] ∧
      (banana_classify_template category title content).1 ≠ [] ∧
      (banana_classify_template category title content).2.1 ≠ [] ∧
      (banana_classify_template category title content).2.2.1 ≠ [] ∧
      ((category = "肖像" || pyContains "portrait".data (pyLower category.data)) = false →
        (category = "摄影" || pyContains "photography".data (pyLower category.data)) = false →
        (category = "设计" || pyContains "design".data (pyLower category.data)) = false →
        (category = "场景" || category = "艺术风格") = false →
        (banana_classify_template category title content).1 = ["全部"]) ∧
      ((pyContains "肖像".data (pyLower category.data) ||
          pyContains "portrait".data (pyLower title.data)) = false →
        (pyContains "风景".data (pyLower title.data) ||
          pyContains "landscape".data (pyLower title.data)) = false →
        (pyContains "海报".data (pyLower title.data) ||
          pyContains "poster".data (pyLower title.data)) = false →
        (banana_classify_template category title content).2.2.2 = "1:1")) := by
  constructor
  · intro filename content
    refine ⟨?_, ?_, ?_, ?_, ?_, ?_⟩
    · dsimp only [classify_template]
      split_ifs <;> simp
    · dsimp only [classify_template]
      split_ifs <;> simp
    · dsimp only [classify_template]
      split_ifs <;> simp
    · dsimp only [classify_template]
      split_ifs <;> simp
    · intro h1 h2 h3
      simp [classify_template, h1, h2, h3]
    · intro h1 h2 h3
      simp [classify_template, h1, h2, h3]
  · intro category title content
    refine ⟨?_, ?_, ?_, ?_, ?_, ?_⟩
    · dsimp only [banana_classify_template]
      split_ifs <;> simp
    · dsimp only [banana_classify_template]
      split_ifs <;> simp
    · dsimp only [banana_classify_template]
      split_ifs <;> simp
    · dsimp only [banana_classify_template]
      split_ifs <;> simp
    · intro h1 h2 h3 h4
      simp [banana_classify_template, h1, h2, h3, h4]
    · intro h1 h2 h3
      simp [banana_classify_template, h1, h2, h3]

/-- Witness for C8's default clauses at a concrete keyword-free input. -/
theorem C8_classifier_total_witness :
    (classify_template "simple01" "x").1 = ["全部"] ∧
    (classify_template "simple01" "x").2.2.2 = "1:1" :=
  ⟨(C8_classifier_total.1 "simple01" "x").2.2.2.2.1 (by decide) (by decide) (by decide),
   (C8_classifier_total.1 "simple01" "x").2.2.2.2.2 (by decide) (by decide) (by decide)⟩

/-! ## C6 — extraction-rule order -/

/-- The fenced-block loop finds exactly the earliest line that is
non-blank, is not a delimiter, and lies inside a fenced block. -/
theorem fenceScanG_eq_find (ls : List Chars) :
    ∀ par, fenceScanG ls par =
      ((annotateParity par ls).find? fencedRuleLine).map (fun lp => pyStrip lp.1) := by
  induction ls with
  | nil => intro par; simp [fenceScanG, annotateParity]
  | cons l ls ih =>
    intro par
    by_cases hdel : pyStartsWith "```".data (pyStrip l) = true
    · have hq : fencedRuleLine (l, par) = false := by simp [fencedRuleLine, hdel]
      simp [fenceScanG, annotateParity, hdel, hq, ih]
    · rw [Bool.not_eq_true] at hdel
      by_cases hc : (par && !(pyStrip l).isEmpty) = true
      · have hq : fencedRuleLine (l, par) = true := by
          simp only [fencedRuleLine, hdel]
          simp_all
        simp [fenceScanG, annotateParity, hdel, hc, hq]
      · have hq : fencedRuleLine (l, par) = false := by
          simp only [fencedRuleLine, hdel]
          simp_all
        simp [fenceScanG, annotateParity, hdel, hc, hq, ih]

/-- The Latin-ratio loop finds exactly the earliest stripped line
qualifying under the 0.6-threshold test. -/
theorem latinScanG_eq_find (ls : List Chars) :
    latinScanG ls = (ls.map pyStrip).find? latinLine06 := by
  induction ls with
  | nil => simp [latinScanG]
  | cons l ls ih =>
    by_cases h : latinLine06 (pyStrip l) = true
    · simp [latinScanG, h]
    · simp [latinScanG, h, ih]

/-- The rule-three loop finds exactly the earliest stripped line that is
non-blank, non-heading and longer than 10 characters. -/
theorem ruleThreeScan_eq_find (ls : List Chars) :
    ruleThreeScan ls = (ls.map pyStrip).find? ruleThreeLine := by
  induction ls with
  | nil => simp [ruleThreeScan]
  | cons l ls ih =>
    by_cases h : ruleThreeLine (pyStrip l) = true
    · rw [ruleThreeLine] at h
      simp [ruleThreeScan, ruleThreeLine, h]
    · rw [ruleThreeLine, Bool.not_eq_true] at h
      simp [ruleThreeScan, ruleThreeLine, h, ih]

/-- The one-pass loop of `_extract_prompt` finds exactly the earliest line
satisfying the combined fenced/Latin per-line rule. -/
theorem bananaScan_eq_find (ls : List Chars) :
    ∀ par, bananaScan ls par =
      ((annotateParity par ls).find? bananaRuleLine).map (fun lp => pyStrip lp.1) := by
  induction ls with
  | nil => intro par; simp [bananaScan, annotateParity]
  | cons l ls ih =>
    intro par
    by_cases hdel : pyStartsWith "```".data (pyStrip l) = true
    · have hq : bananaRuleLine (l, par) = false := by simp [bananaRuleLine, hdel]
      simp [bananaScan, annotateParity, hdel, hq, ih]
    · rw [Bool.not_eq_true] at hdel
      by_cases hc1 : (par && !(pyStrip l).isEmpty) = true
      · have hq : bananaRuleLine (l, par) = true := by
          simp only [bananaRuleLine, hdel]
          simp_all
        simp [bananaScan, annotateParity, hdel, hc1, hq]
      · by_cases hc2 : (!par && !(pyStrip l).isEmpty && !pyStartsWith "#".data (pyStrip l) &&
            decide ((pyStrip l).length > 20) && is_english_prompt (pyStrip l)) = true
        · have hq : bananaRuleLine (l, par) = true := by
            simp only [bananaRuleLine, hdel]
            simp_all
          simp [bananaScan, annotateParity, hdel, hc1, hc2, hq]
        · have hq : bananaRuleLine (l, par) = false := by
            simp only [bananaRuleLine, hdel]
            simp_all
          simp [bananaScan, annotateParity, hdel, hc1, hc2, hq, ih]

/-- C6 counterexample: two deviations from the claimed three-rule
priority.  (i) A document whose only line qualifies under rule three (a
12-character non-heading line) is a rule-three match, yet
`extract_from_github.py` produces no record at all — it has no rule-three
fallback.  (ii) In `_extract_prompt`, a qualifying Latin line placed
*before* a fenced block wins over the fenced line, although the claim
gives the fenced rule priority. -/
theorem C6_counterexample :
    github_parse_prompt_file "短句的测试文字共计十二个字" "a/b.md" = none ∧
    ruleThreeScan (toLines "短句的测试文字共计十二个字") =
      some "短句的测试文字共计十二个字".data ∧
    banana_extract_prompt
        "A long English descriptive sentence here okay\n```\nfenced prompt text\n```" =
      "A long English descriptive sentence here okay".data ∧
    fenceScanG (toLines
        "A long English descriptive sentence here okay\n```\nfenced prompt text\n```") false =
      some "fenced prompt text".data := by
  decide

/-- C6 (amended): the two parsers differ from the claimed uniform policy.
`extract_from_github.py` applies the fenced rule over the whole document,
then the 0.6-threshold Latin rule, and has *no* rule-three fallback.
`_extract_prompt` of `extract_banana_templates.py` makes one pass in which
the fenced rule and the 0.7-threshold Latin rule compete per line (the
earliest line satisfying either wins), then applies rule three in a second
pass, then a placeholder.  Each parser caps the stored prompt at 500
characters. -/
theorem C6_extraction_policy :
    (∀ content : String, github_extract_prompt content = githubExtractSpec content) ∧
    (∀ content : String, banana_extract_prompt content = bananaExtractSpec content) ∧
    (∀ content filepath : String, ∀ t : Template,
      github_parse_prompt_file content filepath = some t → t.prompt.data.length ≤ 500) ∧
    (∀ (hashVal : Nat) (content filepath : String),
      (banana_parse_prompt_file hashVal content filepath).prompt.data.length ≤ 500) := by
  refine ⟨?_, ?_, ?_, ?_⟩
  · intro content
    rw [github_extract_prompt, githubExtractSpec, fenceScanG_eq_find, latinScanG_eq_find]
  · intro content
    rw [banana_extract_prompt, bananaExtractSpec, bananaScan_eq_find, ruleThreeScan_eq_find]
  · intro content filepath t h
    rw [github_parse_prompt_file] at h
    split at h
    · exact absurd h (by simp)
    · split at h
      · exact absurd h (by simp)
      · rw [Option.some_inj] at h
        subst h
        simp
  · intro hashVal content filepath
    simp [banana_parse_prompt_file]

/-- Witness for C6's capped-prompt clause at a concrete parsed record. -/
theorem C6_extraction_policy_witness : fencedDocTpl.prompt.data.length ≤ 500 :=
  C6_extraction_policy.2.2.1 "```\nhello there okay\n```" "x/b.md" fencedDocTpl (by decide)

/-! ## C3 — ID allocation: decimal print/parse roundtrip -/

/-- `(a ++ b).data = a.data ++ b.data`. -/
theorem strDataAppend (a b : String) : (a ++ b).data = a.data ++ b.data := rfl

/-- `natDigitsAux` with enough fuel computes digits whose value is `n`. -/
theorem ofDigitsLE_natDigitsAux :
    ∀ fuel n, n ≤ fuel → ofDigitsLE (natDigitsAux fuel n) = n := by
  intro fuel
  induction fuel with
  | zero =>
    intro n hn
    interval_cases n
    simp [natDigitsAux, ofDigitsLE]
  | succ f ih =>
    intro n hn
    match n with
    | 0 => simp [natDigitsAux, ofDigitsLE]
    | m + 1 =>
      have hdiv : (m + 1) / 10 ≤ f := by
        have := Nat.div_le_self (m + 1) 10
        have h2 : (m + 1) / 10 < m + 1 := Nat.div_lt_self (Nat.succ_pos m) (by omega)
        omega
      rw [natDigitsAux, ofDigitsLE, ih _ hdiv]
      omega

/-- Every digit produced by `natDigitsAux` is below 10. -/
theorem natDigitsAux_lt :
    ∀ fuel n d, d ∈ natDigitsAux fuel n → d < 10 := by
  intro fuel
  induction fuel with
  | zero => intro n d hd; simp [natDigitsAux] at hd
  | succ f ih =>
    intro n d hd
    match n with
    | 0 => simp [natDigitsAux] at hd
    | m + 1 =>
      rw [natDigitsAux] at hd
      rcases List.mem_cons.mp hd with h | h
      · subst h; exact Nat.mod_lt _ (by omega)
      · exact ih _ _ h

/-- `digitVal` inverts `Nat.digitChar` on digits. -/
theorem digitVal_digitChar (d : Nat) (hd : d < 10) :
    digitVal (Nat.digitChar d) = some d := by
  interval_cases d <;> decide

/-- Folding the decimal accumulator over reversed little-endian digits. -/
theorem foldl_digit_rev (L : List Nat) :
    ∀ a : Nat, List.foldl (fun x d => x * 10 + d) a L.reverse =
      a * 10 ^ L.length + ofDigitsLE L := by
  induction L with
  | nil => intro a; simp [ofDigitsLE]
  | cons d L ih =>
    intro a
    rw [List.reverse_cons, List.foldl_append, ih a]
    simp only [List.foldl_cons, List.foldl_nil, ofDigitsLE, List.length_cons]
    ring

/-- On an all-digit run the accumulator loop succeeds with the fold. -/
theorem parseNatAux_digits :
    ∀ (cs : Chars) (acc : Nat), (∀ c ∈ cs, (digitVal c).isSome) →
      parseNatAux acc cs = some (List.foldl (fun a c => a * 10 + dvalD c) acc cs) := by
  intro cs
  induction cs with
  | nil => intro acc _; simp [parseNatAux]
  | cons c cs ih =>
    intro acc h
    have hc := h c (List.mem_cons_self c cs)
    rcases hd : digitVal c with _ | d
    · rw [hd] at hc; simp at hc
    · simp only [parseNatAux, hd]
      rw [ih _ (fun x hx => h x (List.mem_cons_of_mem c hx))]
      simp [dvalD, hd]

/-- Every character of `natChars n` is a decimal digit character. -/
theorem natChars_digits (n : Nat) : ∀ c ∈ natChars n, (digitVal c).isSome := by
  intro c hc
  rw [natChars] at hc
  by_cases h0 : n = 0
  · simp [h0] at hc
    subst hc; decide
  · simp only [h0, if_false] at hc
    rcases List.mem_map.mp hc with ⟨d, hd, hdc⟩
    have := natDigitsAux_lt n n d (List.mem_reverse.mp hd)
    rw [← hdc, digitVal_digitChar d this]
    rfl

/-- `natChars` is never empty. -/
theorem natChars_ne_nil (n : Nat) : natChars n ≠ [] := by
  rw [natChars]
  by_cases h0 : n = 0
  · simp [h0]
  · simp only [h0, if_false]
    match hn : n, h0 with
    | m + 1, _ =>
      simp [natDigitsLE, natDigitsAux]

/-- Value of the decimal fold over `natChars n`. -/
theorem foldl_dval_natChars (n : Nat) (a : Nat) :
    List.foldl (fun x c => x * 10 + dvalD c) a (natChars n) =
      a * 10 ^ (natChars n).length + n := by
  rw [natChars]
  by_cases h0 : n = 0
  · simp [h0, dvalD, digitVal]
  · simp only [h0, if_false]
    rw [List.foldl_map]
    have hlt : ∀ d ∈ (natDigitsLE n).reverse, d < 10 := by
      intro d hd
      exact natDigitsAux_lt n n d (List.mem_reverse.mp hd)
    have hext : List.foldl (fun x d => x * 10 + dvalD (Nat.digitChar d)) a
        (natDigitsLE n).reverse =
        List.foldl (fun x d => x * 10 + d) a (natDigitsLE n).reverse := by
      apply List.foldl_ext
      intro x d hd
      rw [dvalD, digitVal_digitChar d (hlt d hd)]
      rfl
    rw [hext, foldl_digit_rev (natDigitsLE n) a,
      show ofDigitsLE (natDigitsLE n) = n from ofDigitsLE_natDigitsAux n n (le_refl n)]
    simp

/-- Characters of `padNat` are digit characters. -/
theorem padNat_digits (w n : Nat) : ∀ c ∈ padNat w n, (digitVal c).isSome := by
  intro c hc
  rw [padNat] at hc
  rcases List.mem_append.mp hc with h | h
  · have := List.eq_of_mem_replicate h
    subst this
    decide
  · exact natChars_digits n c h

/-- `padNat` is never empty. -/
theorem padNat_ne_nil (w n : Nat) : padNat w n ≠ [] := by
  rw [padNat]
  intro h
  rcases List.append_eq_nil.mp h with ⟨-, h2⟩
  exact natChars_ne_nil n h2

/-- Leading zero characters do not change the accumulated value 0. -/
theorem foldl_dval_zeros (k : Nat) :
    List.foldl (fun x c => x * 10 + dvalD c) 0 (List.replicate k '0') = 0 := by
  induction k with
  | zero => rfl
  | succ k ih =>
    rw [List.replicate_succ, List.foldl_cons]
    have h0 : (0 * 10 + dvalD '0') = 0 := by decide
    rw [h0]
    exact ih

/-- Parsing a zero-padded decimal rendering recovers the value. -/
theorem parseNat_padNat (w n : Nat) : parseNat (padNat w n) = some n := by
  have hval : parseNatAux 0 (padNat w n) = some n := by
    rw [parseNatAux_digits (padNat w n) 0 (padNat_digits w n)]
    congr 1
    rw [padNat, List.foldl_append, foldl_dval_zeros, foldl_dval_natChars n 0]
    simp
  rcases hp : padNat w n with _ | ⟨c, cs⟩
  · exact absurd hp (padNat_ne_nil w n)
  · rw [hp] at hval
    show parseNatAux 0 (c :: cs) = some n
    exact hval

/-- Digit bounds from a successful `digitVal`. -/
theorem digit_bounds (c : Char) (h : (digitVal c).isSome = true) :
    48 ≤ c.toNat ∧ c.toNat ≤ 57 := by
  rw [digitVal] at h
  by_cases hc : 48 ≤ c.toNat ∧ c.toNat ≤ 57
  · exact hc
  · simp [hc] at h

/-- Digit characters are not Python whitespace. -/
theorem digit_not_space (c : Char) (h : (digitVal c).isSome = true) :
    isPySpace c = false := by
  have hb := digit_bounds c h
  simp only [isPySpace, Bool.or_eq_false_iff, decide_eq_false_iff_not]
  omega

/-- `dropWhile` is the identity when no character satisfies the test. -/
theorem dropWhile_no (p : Char → Bool) (cs : Chars) (h : ∀ c ∈ cs, p c = false) :
    cs.dropWhile p = cs := by
  cases cs with
  | nil => rfl
  | cons c cs =>
    rw [List.dropWhile_cons, h c (List.mem_cons_self c cs)]
    simp

/-- `strip()` is the identity on an all-digit run. -/
theorem pyStrip_digits (cs : Chars) (h : ∀ c ∈ cs, (digitVal c).isSome) :
    pyStrip cs = cs := by
  have h1 : ∀ c ∈ cs, isPySpace c = false := fun c hc => digit_not_space c (h c hc)
  rw [pyStrip, dropWhile_no _ _ h1, dropWhile_no, List.reverse_reverse]
  intro c hc
  exact h1 c (List.mem_reverse.mp hc)

/-- On a nonempty all-digit run, `int()` is unsigned decimal reading. -/
theorem pyInt_digits (cs : Chars) (hne : cs ≠ []) (h : ∀ c ∈ cs, (digitVal c).isSome) :
    pyInt cs = (parseNat cs).map Int.ofNat := by
  rcases cs with _ | ⟨c, cs⟩
  · exact absurd rfl hne
  · have hb := digit_bounds c (h c (List.mem_cons_self c cs))
    rw [pyInt, pyStrip_digits (c :: cs) h]
    split
    · rename_i rest heq
      rw [List.cons.injEq] at heq
      rw [heq.1] at hb
      exact absurd hb (by decide)
    · rename_i rest heq
      rw [List.cons.injEq] at heq
      rw [heq.1] at hb
      exact absurd hb (by decide)
    · rfl

/-- `replace('nbp-', '')` leaves an all-digit run unchanged. -/
theorem replaceAux_digits :
    ∀ (cs : Chars) (fuel : Nat), (∀ c ∈ cs, (digitVal c).isSome) →
      pyReplaceAux "nbp-".data [] fuel cs = cs := by
  intro cs
  induction cs with
  | nil => intro fuel _; cases fuel <;> rfl
  | cons c cs ih =>
    intro fuel h
    cases fuel with
    | zero => rfl
    | succ f =>
      have hb := digit_bounds c (h c (List.mem_cons_self c cs))
      have hpre : (("nbp-".data).isPrefixOf (c :: cs)) = false := by
        have hnc : ('n' == c) = false := by
          rw [beq_eq_false_iff_ne]
          intro he
          rw [← he] at hb
          exact absurd hb (by decide)
        show ((['n', 'b', 'p', '-'] : Chars).isPrefixOf (c :: cs)) = false
        simp [List.isPrefixOf, hnc]
      simp only [pyReplaceAux, hpre, Bool.false_eq_true, and_false, if_false]
      rw [ih f (fun x hx => h x (List.mem_cons_of_mem c hx))]

/-- Removing the `nbp-` prefix from a prefixed all-digit id. -/
theorem pyReplace_nbp_digits (ds : Chars) (h : ∀ c ∈ ds, (digitVal c).isSome) :
    pyReplaceAll "nbp-".data [] ("nbp-".data ++ ds) = ds := by
  rw [pyReplaceAll]
  have h4 : ("nbp-".data ++ ds).length = (ds.length + 3) + 1 := by
    rw [List.length_append]
    have : ("nbp-".data).length = 4 := rfl
    omega
  rw [h4]
  show pyReplaceAux "nbp-".data [] ((ds.length + 3) + 1)
    ('n' :: 'b' :: 'p' :: '-' :: ds) = ds
  rw [pyReplaceAux]
  have hcond : ("nbp-".data ≠ []) ∧
      (("nbp-".data).isPrefixOf ('n' :: 'b' :: 'p' :: '-' :: ds)) = true := by
    refine ⟨by decide, ?_⟩
    have : ('n' :: 'b' :: 'p' :: '-' :: ds) = "nbp-".data ++ ds := rfl
    rw [this]
    exact List.isPrefixOf_iff_prefix.mpr (List.prefix_append _ ds)
  rw [if_pos hcond]
  show [] ++ pyReplaceAux "nbp-".data [] (ds.length + 3) ds = ds
  rw [List.nil_append]
  exact replaceAux_digits ds (ds.length + 3) h

/-- Roundtrip: the numeric part `get_next_id` reads from an id it itself
formatted is the value that was formatted. -/
theorem pyInt_replace_fmtId (n : Nat) :
    pyInt (pyReplaceAll "nbp-".data [] (fmtId n).data) = some (Int.ofNat n) := by
  have hdata : (fmtId n).data = "nbp-".data ++ padNat 3 n := by
    rw [fmtId, strDataAppend]
  rw [hdata, pyReplace_nbp_digits (padNat 3 n) (padNat_digits 3 n),
    pyInt_digits (padNat 3 n) (padNat_ne_nil 3 n) (padNat_digits 3 n),
    parseNat_padNat 3 n]
  rfl

/-- Under `wfId` the allocator loop computes the running maximum. -/
theorem getNextIdAux_wf :
    ∀ (ts : List Template) (m : Int), ts.all wfId = true →
      getNextIdAux m ts = some (maxFold m ts) := by
  intro ts
  induction ts with
  | nil => intro m _; rfl
  | cons t ts ih =>
    intro m hw
    rw [List.all_cons, Bool.and_eq_true] at hw
    rcases hid : t.id with _ | s
    · simp only [getNextIdAux, hid]
      rw [ih m hw.2]
      congr 1
      simp [maxFold, List.foldl_cons, idNum, hid]
    · rcases hp : pyInt (pyReplaceAll "nbp-".data [] s.data) with _ | v
      · exfalso
        have := hw.1
        rw [wfId, hid] at this
        simp [hp] at this
      · simp only [getNextIdAux, hid, hp]
        rw [ih _ hw.2]
        congr 1
        simp [maxFold, List.foldl_cons, idNum, hid, hp]

/-- The running maximum never falls below its start. -/
theorem maxFold_ge : ∀ (ts : List Template) (m : Int), m ≤ maxFold m ts := by
  intro ts
  induction ts with
  | nil => intro m; simp [maxFold]
  | cons t ts ih =>
    intro m
    rcases h : idNum t with _ | v
    · have hc : maxFold m (t :: ts) = maxFold m ts := by
        simp [maxFold, List.foldl_cons, h]
      rw [hc]
      exact ih m
    · have hc : maxFold m (t :: ts) = maxFold (if m < v then v else m) ts := by
        simp [maxFold, List.foldl_cons, h]
      rw [hc]
      refine le_trans ?_ (ih _)
      by_cases hv : m < v
      · simp [hv]
        omega
      · simp [hv]

/-- Folding over an appended list. -/
theorem maxFold_append (m : Int) (a b : List Template) :
    maxFold m (a ++ b) = maxFold (maxFold m a) b := by
  simp [maxFold, List.foldl_append]

/-- Every listed record's numeric id is bounded by the running maximum. -/
theorem mem_le_maxFold : ∀ (ts : List Template) (m : Int), 0 ≤ m →
    ∀ t ∈ ts, idNumD t ≤ maxFold m ts := by
  intro ts
  induction ts with
  | nil =>
    intro m _ t ht
    simp at ht
  | cons u ts ih =>
    intro m hm t ht
    rcases List.mem_cons.mp ht with h | h
    · subst h
      rcases hu : idNum t with _ | v
      · have h0 : idNumD t = 0 := by simp [idNumD, hu]
        have hc : maxFold m (t :: ts) = maxFold m ts := by
          simp [maxFold, List.foldl_cons, hu]
        rw [h0, hc]
        exact le_trans hm (maxFold_ge ts m)
      · have hd : idNumD t = v := by simp [idNumD, hu]
        have hc : maxFold m (t :: ts) = maxFold (if m < v then v else m) ts := by
          simp [maxFold, List.foldl_cons, hu]
        rw [hd, hc]
        refine le_trans ?_ (maxFold_ge ts _)
        by_cases hv : m < v
        · simp [hv]
        · simp [hv]
          omega
    · rcases hu : idNum u with _ | v
      · have hc : maxFold m (u :: ts) = maxFold m ts := by
          simp [maxFold, List.foldl_cons, hu]
        rw [hc]
        exact ih m hm t h
      · have hc : maxFold m (u :: ts) = maxFold (if m < v then v else m) ts := by
          simp [maxFold, List.foldl_cons, hu]
        rw [hc]
        refine ih _ ?_ t h
        by_cases hv : m < v
        · simp [hv]
          omega
        · simp [hv]
          exact hm

/-- `pad3Int` of a natural value is plain width-3 zero padding. -/
theorem pad3Int_ofNat (k : Nat) : pad3Int ((k : Nat) : Int) = padNat 3 k := by
  rw [pad3Int, if_neg (by omega)]
  simp

/-- Under `wfId`, `get_next_id` returns `nbp-` + (running maximum + 1)
zero-padded to width 3. -/
theorem get_next_id_wf (ts : List Template) (hw : ts.all wfId = true) :
    get_next_id ts = some (fmtId ((maxFold 0 ts).toNat + 1)) := by
  rw [get_next_id, getNextIdAux_wf ts 0 hw]
  simp only [Option.map_some']
  have htn : maxFold 0 ts + 1 = (((maxFold 0 ts).toNat + 1 : Nat) : Int) := by
    have h0 : (0 : Int) ≤ maxFold 0 ts := maxFold_ge ts 0
    omega
  rw [htn, pad3Int_ofNat]
  rfl

/-- A record given a formatted id satisfies `wfId`. -/
theorem wfId_fmtId (t : Template) (k : Nat) :
    wfId { t with id := some (fmtId k) } = true := by
  simp [wfId, pyInt_replace_fmtId k]

/-- The numeric id of a record given a formatted id. -/
theorem idNum_fmtId (t : Template) (k : Nat) :
    idNum { t with id := some (fmtId k) } = some (Int.ofNat k) := by
  simp [idNum, pyInt_replace_fmtId k]

/-- Invariant induction over the acceptance loop: starting from an
accepted block of consecutively numbered records, the loop never raises
and extends the block consecutively from (existing maximum) + 1. -/
theorem processAux_block (existing : List Template) (hw : existing.all wfId = true) :
    ∀ (cands acc : List Template),
      acc.map Template.id = (List.range acc.length).map
        (fun i => some (fmtId ((maxFold 0 existing).toNat + 1 + i))) →
      maxFold 0 (existing ++ acc) =
        (((maxFold 0 existing).toNat + acc.length : Nat) : Int) →
      ∃ res, processCandidatesAux existing acc cands = some res ∧
        res.map Template.id = (List.range res.length).map
          (fun i => some (fmtId ((maxFold 0 existing).toNat + 1 + i))) ∧
        acc.length ≤ res.length := by
  intro cands
  induction cands with
  | nil =>
    intro acc hacc hmax
    exact ⟨acc, rfl, hacc, le_refl _⟩
  | cons t rest ih =>
    intro acc hacc hmax
    by_cases hd : isDupAgainst existing t = true
    · rcases ih acc hacc hmax with ⟨res, h1, h2, h3⟩
      refine ⟨res, ?_, h2, h3⟩
      simp only [processCandidatesAux, hd, if_true]
      exact h1
    · have hwacc : acc.all wfId = true := by
        rw [List.all_eq_true]
        intro a ha
        obtain ⟨i, hi⟩ : ∃ i, a.id = some (fmtId ((maxFold 0 existing).toNat + 1 + i)) := by
          have hmem : a.id ∈ acc.map Template.id := List.mem_map_of_mem Template.id ha
          rw [hacc] at hmem
          rcases List.mem_map.mp hmem with ⟨i, _, hival⟩
          exact ⟨i, hival.symm⟩
        rw [wfId, hi]
        show (pyInt (pyReplaceAll "nbp-".data []
          (fmtId ((maxFold 0 existing).toNat + 1 + i)).data)).isSome = true
        rw [pyInt_replace_fmtId]
        rfl
      have hwall : (existing ++ acc).all wfId = true := by
        rw [List.all_append, hw, hwacc]
        rfl
      have hgn : get_next_id (existing ++ acc) =
          some (fmtId ((maxFold 0 existing).toNat + acc.length + 1)) := by
        rw [get_next_id_wf (existing ++ acc) hwall, hmax, Int.toNat_natCast]
      set M := (maxFold 0 existing).toNat with hM
      set t' : Template := { t with id := some (fmtId (M + acc.length + 1)) } with ht'
      have hidt' : idNum t' = some ((M + acc.length + 1 : Nat) : Int) := by
        rw [ht', idNum_fmtId]
        rfl
      have hone : [t'].map Template.id = [some (fmtId (M + 1 + acc.length))] := by
        simp only [List.map_cons, List.map_nil, ht']
        have harg : M + acc.length + 1 = M + 1 + acc.length := by omega
        rw [harg]
      have hlen1 : (acc ++ [t']).length = acc.length + 1 := by simp
      have hacc' : (acc ++ [t']).map Template.id =
          (List.range (acc ++ [t']).length).map
            (fun i => some (fmtId (M + 1 + i))) := by
        rw [hlen1, List.range_succ]
        simp only [List.map_append, hacc, hone, List.map_cons, List.map_nil]
      have hmax' : maxFold 0 (existing ++ (acc ++ [t'])) =
          ((M + (acc ++ [t']).length : Nat) : Int) := by
        rw [← List.append_assoc, maxFold_append, hmax]
        simp only [maxFold, List.foldl_cons, List.foldl_nil, hidt']
        rw [if_pos (by push_cast; omega), hlen1]
        push_cast
        ring
      rcases ih (acc ++ [t']) hacc' hmax' with ⟨res, h1, h2, h3⟩
      refine ⟨res, ?_, h2, ?_⟩
      · simp only [processCandidatesAux, hd, hgn, if_false, Bool.false_eq_true]
        exact h1
      · refine le_trans ?_ h3
        simp

/-- C3: in the merge pipeline (`extract_from_github.py`), provided every
existing id parses under the allocator's reading, a run never raises and
assigns to the accepted records exactly the ids `nbp-` + (existing
maximum + 1), (existing maximum + 2), … zero-padded to the fixed width 3;
consequently the numeric ids are strictly increasing in acceptance order
(hence pairwise unique) and strictly greater than every existing record's
numeric id. -/
theorem C3_id_allocation (existing cands : List Template)
    (hw : existing.all wfId = true) :
    ∃ accepted, processCandidates existing cands = some accepted ∧
      accepted.map Template.id = (List.range accepted.length).map
        (fun i => some (fmtId ((maxFold 0 existing).toNat + 1 + i))) ∧
      List.Pairwise (fun a b => idNumD a < idNumD b) accepted ∧
      (∀ a ∈ accepted, ∀ e ∈ existing, idNumD e < idNumD a) := by
  have h0 : (0 : Int) ≤ maxFold 0 existing := maxFold_ge existing 0
  obtain ⟨res, h1, h2, -⟩ := processAux_block existing hw cands [] (by simp)
    (by simp [Int.toNat_of_nonneg h0])
  have hget : ∀ (i : Nat) (hi : i < res.length),
      (getElem res i hi).id = some (fmtId ((maxFold 0 existing).toNat + 1 + i)) := by
    intro i hi
    have e1 : getElem (res.map Template.id) i (by simpa using hi) =
        (getElem res i hi).id := by
      simp
    have e2 := List.getElem_of_eq h2 (i := i) (by simpa using hi)
    rw [e1] at e2
    simpa using e2
  have hnum : ∀ (i : Nat) (hi : i < res.length),
      idNumD (getElem res i hi) = (((maxFold 0 existing).toNat + 1 + i : Nat) : Int) := by
    intro i hi
    have hv : idNum (getElem res i hi) =
        some (Int.ofNat ((maxFold 0 existing).toNat + 1 + i)) := by
      rw [idNum, hget i hi]
      exact pyInt_replace_fmtId ((maxFold 0 existing).toNat + 1 + i)
    rw [idNumD, hv]
    rfl
  have hpw : List.Pairwise (fun a b => idNumD a < idNumD b) res := by
    rw [List.pairwise_iff_getElem]
    intro i j hi hj hij
    rw [hnum i hi, hnum j hj]
    push_cast
    omega
  have hex : ∀ a ∈ res, ∀ e ∈ existing, idNumD e < idNumD a := by
    intro a ha e he
    obtain ⟨i, hi, hia⟩ := List.mem_iff_getElem.mp ha
    have hb : idNumD e ≤ maxFold 0 existing := mem_le_maxFold existing 0 (le_refl 0) e he
    rw [← Int.toNat_of_nonneg h0] at hb
    rw [← hia, hnum i hi]
    push_cast at hb ⊢
    omega
  exact ⟨res, h1, h2, hpw, hex⟩

/-- Witness for C3 at a concrete run: one existing record `nbp-007`, one
fresh candidate. -/
theorem C3_id_allocation_witness :
    ∃ accepted,
      processCandidates [mkTpl (some "nbp-007") "old prompt"] [mkTpl none "a new prompt"] =
        some accepted ∧
      accepted.map Template.id = (List.range accepted.length).map
        (fun i => some (fmtId ((maxFold 0 [mkTpl (some "nbp-007") "old prompt"]).toNat + 1 + i))) ∧
      List.Pairwise (fun a b => idNumD a < idNumD b) accepted ∧
      (∀ a ∈ accepted, ∀ e ∈ [mkTpl (some "nbp-007") "old prompt"], idNumD e < idNumD a) :=
  C3_id_allocation [mkTpl (some "nbp-007") "old prompt"] [mkTpl none "a new prompt"]
    (by decide)
